import Mathlib

/-!
Verification of the notification subsystem of a student-management web
application (`Home/school/views.py`).  The handlers are embedded as pure
functions over an explicit database state; the web framework's ORM calls
(`filter`, `update`, `delete`, `create`, `count`) become the corresponding
list operations, and `request` becomes a record carrying the HTTP method
and the resolved authenticated user.
-/

namespace SchoolViews

/-- Modelled from the spec: the `Notification` record.  Its defining
`models.py` is not among the sources (only `views.py` and `admin.py` are),
so the fields follow the spec's data model and the fields the views use:
an owner (`user`), a `message`, and `is_read` defaulting to false; `id` is
the persistence layer's auto-incremented primary key, which gives records
their identity.  User identities are represented by their numeric ids. -/
structure Notification where
  id : Nat
  user : Nat
  message : String
  is_read : Bool
deriving DecidableEq, Repr

/-- The persisted state: the `Notification` table together with the next
fresh primary key the persistence layer will assign. -/
structure DB where
  notifications : List Notification
  nextId : Nat
deriving DecidableEq, Repr

/-- An inbound request: its HTTP method and the already-authenticated
actor (`request.user`), as a user id. -/
structure Request where
  method : String
  user : Nat
deriving DecidableEq, Repr

/-- The response shapes the views produce: `JsonResponse`, an
`HttpResponseForbidden`, a `redirect` to a named URL, and a `render` of a
template with a context mapping. -/
inductive Response where
  | json (status : String)
  | forbidden
  | redirectTo (target : String)
  | rendered (template : String) (context : List (String × Nat))
deriving DecidableEq, Repr

/-- The `user` argument of `create_notification`: either an
already-resolved user object, a primitive id (`int` or a numeric `str`,
both resolved through `User.objects.get(pk=user)`), or `None`. -/
inductive UserRef where
  | noneRef
  | resolved (u : Nat)
  | byId (i : Nat)
deriving DecidableEq, Repr

/-- Python truthiness of the `user` argument: `None` is falsy, a model
instance is truthy, a primitive id is falsy exactly when it is `0`. -/
def UserRef.truthy : UserRef → Bool
  | .noneRef => false
  | .resolved _ => true
  | .byId i => i != 0

/-- Embeds `create_notification(user, message, notification_type=None)`:
guard `if user and message`, then resolve a primitive id against the user
store (`users` is the set of existing user ids; `User.DoesNotExist` makes
the function return after printing a warning), then
`Notification.objects.create(user=user, message=message)`.  The
`notification_type` argument is accepted and never used, as in the
source. -/
def create_notification (users : List Nat) (user : UserRef) (message : String)
    (ntype : Option String) (db : DB) : DB :=
  if user.truthy && !(message == "") then
    match user with
    | .noneRef => db
    | .resolved u =>
        { db with
          notifications := db.notifications ++ [⟨db.nextId, u, message, false⟩]
          nextId := db.nextId + 1 }
    | .byId i =>
        if users.contains i then
          { db with
            notifications := db.notifications ++ [⟨db.nextId, i, message, false⟩]
            nextId := db.nextId + 1 }
        else db
  else db

/-- Embeds the query of the `dashboard` view:
`Notification.objects.filter(user=request.user, is_read=False).count()`. -/
def unread_notification_count (u : Nat) (ns : List Notification) : Nat :=
  (ns.filter fun n => n.user == u && !n.is_read).length

/-- Embeds `dashboard(request)`: renders the student dashboard with the
unread count in the context; the store is not modified. -/
def dashboard (req : Request) (db : DB) : Response × DB :=
  (Response.rendered "students/student-dashboard.html"
    [("unread_notification_count", unread_notification_count req.user db.notifications)],
   db)

/-- Embeds the bulk update shared by the two mark-read views:
`Notification.objects.filter(user=u, is_read=False).update(is_read=True)`. -/
def markAllReadUpdate (u : Nat) (ns : List Notification) : List Notification :=
  ns.map fun n => if n.user == u && !n.is_read then { n with is_read := true } else n

/-- Embeds `mark_notification_as_read(request)`: on POST, bulk-update the
actor's unread notifications to read and answer a JSON success; otherwise
answer 403 Forbidden. -/
def mark_notification_as_read (req : Request) (db : DB) : Response × DB :=
  if req.method = "POST" then
    (Response.json "success",
     { db with notifications := markAllReadUpdate req.user db.notifications })
  else
    (Response.forbidden, db)

/-- Embeds `clear_all_notification(request)`: on POST, bulk-delete every
notification of the actor (`filter(user=request.user).delete()`) and
answer a JSON success; otherwise answer 403 Forbidden. -/
def clear_all_notification (req : Request) (db : DB) : Response × DB :=
  if req.method = "POST" then
    (Response.json "success",
     { db with notifications := db.notifications.filter fun n => n.user != req.user })
  else
    (Response.forbidden, db)

/-- Embeds `mark_all_notifications_read(request)`: on POST, the same bulk
update as `mark_notification_as_read`, answered with a redirect to the
`dashboard` named URL; otherwise 403 Forbidden. -/
def mark_all_notifications_read (req : Request) (db : DB) : Response × DB :=
  if req.method = "POST" then
    (Response.redirectTo "dashboard",
     { db with notifications := markAllReadUpdate req.user db.notifications })
  else
    (Response.forbidden, db)

/-- The operations of the subsystem, for reasoning about sequences of
invocations. -/
inductive Op where
  | createOp (user : UserRef) (message : String) (ntype : Option String)
  | dashboardOp (req : Request)
  | markJsonOp (req : Request)
  | markRedirectOp (req : Request)
  | clearOp (req : Request)
deriving DecidableEq, Repr

/-- The state transition each operation performs (responses discarded). -/
def step (users : List Nat) (op : Op) (db : DB) : DB :=
  match op with
  | .createOp u m t => create_notification users u m t db
  | .dashboardOp req => (dashboard req db).2
  | .markJsonOp req => (mark_notification_as_read req db).2
  | .markRedirectOp req => (mark_all_notifications_read req db).2
  | .clearOp req => (clear_all_notification req db).2

/-- Runs a sequence of operations from a given state. -/
def run (users : List Nat) (ops : List Op) (db : DB) : DB :=
  ops.foldl (fun s op => step users op s) db

/-! Theorems -/

/-- Claim C2: for every actor and every store, the dashboard handler renders the
student dashboard with, under the key `unread_notification_count`, exactly
the number of notifications owned by the actor with `is_read = false`;
it always succeeds and never modifies the store. -/
theorem dashboard_counts_unread (req : Request) (db : DB) :
    dashboard req db =
      (Response.rendered "students/student-dashboard.html"
        [("unread_notification_count",
          (db.notifications.filter fun n => n.user == req.user && !n.is_read).length)],
       db) := by
  rfl

/-- Claim C6: a non-POST request to either mark-read handler or to the clear
handler gets a 403 Forbidden response and leaves the store exactly as it
was. -/
theorem non_post_is_forbidden_noop (req : Request) (db : DB)
    (h : req.method ≠ "POST") :
    mark_notification_as_read req db = (Response.forbidden, db) ∧
    clear_all_notification req db = (Response.forbidden, db) ∧
    mark_all_notifications_read req db = (Response.forbidden, db) := by
  refine ⟨?_, ?_, ?_⟩ <;>
    simp [mark_notification_as_read, clear_all_notification,
          mark_all_notifications_read, h]

/-- Witness for C6 at a concrete GET request. -/
theorem non_post_is_forbidden_noop_witness :
    (Request.mk "GET" 1).method ≠ "POST" ∧
    mark_notification_as_read ⟨"GET", 1⟩ ⟨[⟨0, 1, "hi", false⟩], 1⟩ =
      (Response.forbidden, ⟨[⟨0, 1, "hi", false⟩], 1⟩) :=
  ⟨by decide, (non_post_is_forbidden_noop ⟨"GET", 1⟩ ⟨[⟨0, 1, "hi", false⟩], 1⟩
      (by decide)).1⟩

/-- Claim C9: on POST, the JSON mark-read handler and the clear handler answer
the JSON body with status success, and the redirect mark-read handler
redirects to the dashboard view, for every store (whether or not any
notification was actually changed). -/
theorem post_responses_are_success (req : Request) (db : DB)
    (h : req.method = "POST") :
    (mark_notification_as_read req db).1 = Response.json "success" ∧
    (clear_all_notification req db).1 = Response.json "success" ∧
    (mark_all_notifications_read req db).1 = Response.redirectTo "dashboard" := by
  refine ⟨?_, ?_, ?_⟩ <;>
    simp [mark_notification_as_read, clear_all_notification,
          mark_all_notifications_read, h]

/-- Witness for C9 on a POST request against an empty store (zero
notifications changed, still success). -/
theorem post_responses_are_success_witness :
    (Request.mk "POST" 1).method = "POST" ∧
    (mark_notification_as_read ⟨"POST", 1⟩ ⟨[], 0⟩).1 = Response.json "success" ∧
    (clear_all_notification ⟨"POST", 1⟩ ⟨[], 0⟩).1 = Response.json "success" ∧
    (mark_all_notifications_read ⟨"POST", 1⟩ ⟨[], 0⟩).1 =
      Response.redirectTo "dashboard" :=
  ⟨rfl, post_responses_are_success ⟨"POST", 1⟩ ⟨[], 0⟩ rfl⟩

/-- Claim C10: the `notification_type` argument of `create_notification` has no
effect whatsoever: for every user reference, message, store and pair of
values of the argument, the resulting store is identical. -/
theorem create_notification_ignores_ntype (users : List Nat) (user : UserRef)
    (message : String) (t1 t2 : Option String) (db : DB) :
    create_notification users user message t1 db =
      create_notification users user message t2 db := by
  rfl

/-- After the bulk update of the mark-read views, every notification owned
by the actor is read. -/
lemma markAllReadUpdate_owner_read (u : Nat) (ns : List Notification) :
    ∀ n ∈ markAllReadUpdate u ns, n.user = u → n.is_read = true := by
  intro n hn hu
  simp only [markAllReadUpdate, List.mem_map] at hn
  obtain ⟨m, _, hm⟩ := hn
  by_cases hc : (m.user == u && !m.is_read) = true
  · rw [if_pos hc] at hm
    subst hm
    rfl
  · rw [if_neg hc] at hm
    subst hm
    simp only [Bool.and_eq_true, beq_iff_eq, Bool.not_eq_true'] at hc
    rcases Bool.eq_false_or_eq_true m.is_read with hr | hr
    · exact hr
    · exact absurd ⟨hu, hr⟩ hc

/-- The bulk update of the mark-read views leaves zero unread
notifications for the actor. -/
lemma unread_count_markAllReadUpdate (u : Nat) (ns : List Notification) :
    unread_notification_count u (markAllReadUpdate u ns) = 0 := by
  rw [unread_notification_count, List.length_eq_zero, List.filter_eq_nil]
  intro a ha
  simp only [Bool.and_eq_true, beq_iff_eq, Bool.not_eq_true', not_and]
  intro hu
  have := markAllReadUpdate_owner_read u ns a ha hu
  simp [this]

/-- Claim C1: on a POST request, each mark-read handler leaves every
notification owned by the actor with `is_read = true`, and the actor's
unread count (as computed by the dashboard) is then zero. -/
theorem mark_all_read_clears_unread (req : Request) (db : DB)
    (h : req.method = "POST") :
    (∀ n ∈ ((mark_notification_as_read req db).2).notifications,
        n.user = req.user → n.is_read = true) ∧
    unread_notification_count req.user
      ((mark_notification_as_read req db).2).notifications = 0 ∧
    (∀ n ∈ ((mark_all_notifications_read req db).2).notifications,
        n.user = req.user → n.is_read = true) ∧
    unread_notification_count req.user
      ((mark_all_notifications_read req db).2).notifications = 0 := by
  have e1 : (mark_notification_as_read req db).2 =
      { db with notifications := markAllReadUpdate req.user db.notifications } := by
    simp [mark_notification_as_read, h]
  have e2 : (mark_all_notifications_read req db).2 =
      { db with notifications := markAllReadUpdate req.user db.notifications } := by
    simp [mark_all_notifications_read, h]
  rw [e1, e2]
  exact ⟨markAllReadUpdate_owner_read req.user db.notifications,
    unread_count_markAllReadUpdate req.user db.notifications,
    markAllReadUpdate_owner_read req.user db.notifications,
    unread_count_markAllReadUpdate req.user db.notifications⟩

/-- Witness for C1 on a store with one unread and one read notification of
the actor. -/
theorem mark_all_read_clears_unread_witness :
    (Request.mk "POST" 1).method = "POST" ∧
    unread_notification_count 1
      ((mark_notification_as_read ⟨"POST", 1⟩
        ⟨[⟨0, 1, "a", false⟩, ⟨1, 1, "b", true⟩], 2⟩).2).notifications = 0 :=
  ⟨rfl, (mark_all_read_clears_unread ⟨"POST", 1⟩
    ⟨[⟨0, 1, "a", false⟩, ⟨1, 1, "b", true⟩], 2⟩ rfl).2.1⟩

/-- Filtering one actor's records out commutes with selecting a different
actor's records: the other actor sees exactly what it saw before. -/
lemma filter_other_user_unchanged (u v : Nat) (hv : v ≠ u)
    (ns : List Notification) :
    ((ns.filter fun n => n.user != u).filter fun n => n.user == v) =
      ns.filter fun n => n.user == v := by
  induction ns with
  | nil => rfl
  | cons a l ih =>
    by_cases ha : a.user = v
    · have h1 : (a.user != u) = true := by
        simp [ha]
        exact hv
      have h2 : (a.user == v) = true := by simp [ha]
      simp only [List.filter_cons, h1, h2, if_pos, ih]
    · have h2 : ¬(a.user == v) = true := by simp [ha]
      by_cases h1 : (a.user != u) = true
      · simp only [List.filter_cons, h1, if_pos, h2, if_neg, ih]
      · simp only [List.filter_cons, if_neg h1, if_neg h2, ih]

/-- Claim C3: on a POST request, the clear handler removes every notification
owned by the actor, read or unread, and every other actor's notifications
are left completely unchanged. -/
theorem clear_all_removes_only_actor (req : Request) (db : DB)
    (h : req.method = "POST") :
    ((clear_all_notification req db).2).notifications =
      (db.notifications.filter fun n => n.user != req.user) ∧
    (∀ n ∈ ((clear_all_notification req db).2).notifications, n.user ≠ req.user) ∧
    (∀ v, v ≠ req.user →
      (((clear_all_notification req db).2).notifications.filter
          fun n => n.user == v) =
        db.notifications.filter fun n => n.user == v) := by
  have e : (clear_all_notification req db).2 =
      { db with notifications := db.notifications.filter fun n => n.user != req.user } := by
    simp [clear_all_notification, h]
  rw [e]
  refine ⟨rfl, ?_, ?_⟩
  · intro n hn
    have := List.of_mem_filter hn
    simpa using this
  · intro v hv
    exact filter_other_user_unchanged req.user v hv db.notifications

/-- Witness for C3: a store holding records of actors 1 and 2; actor 1
clears, actor 2 is untouched. -/
theorem clear_all_removes_only_actor_witness :
    (Request.mk "POST" 1).method = "POST" ∧
    ((clear_all_notification ⟨"POST", 1⟩
        ⟨[⟨0, 1, "a", false⟩, ⟨1, 2, "b", true⟩, ⟨2, 1, "c", true⟩], 3⟩).2).notifications =
      [⟨1, 2, "b", true⟩] :=
  ⟨rfl, by
    have := (clear_all_removes_only_actor ⟨"POST", 1⟩
      ⟨[⟨0, 1, "a", false⟩, ⟨1, 2, "b", true⟩, ⟨2, 1, "c", true⟩], 3⟩ rfl).1
    rw [this]
    rfl⟩

/-- Claim C4: for an already-resolved user, or a resolvable (truthy) primitive
id, and a non-empty message, `create_notification` appends exactly one new
record, owned by that user, carrying that message, unread, and leaves
every existing record unchanged. -/
theorem create_notification_adds_one (users : List Nat) (u : Nat)
    (message : String) (t : Option String) (db : DB) (hm : message ≠ "") :
    (create_notification users (.resolved u) message t db).notifications =
      db.notifications ++ [⟨db.nextId, u, message, false⟩] ∧
    (u ∈ users → u ≠ 0 →
      (create_notification users (.byId u) message t db).notifications =
        db.notifications ++ [⟨db.nextId, u, message, false⟩]) := by
  have hmb : ¬(message == "") = true := by
    simpa using hm
  constructor
  · simp [create_notification, UserRef.truthy, hmb]
  · intro hu h0
    simp [create_notification, UserRef.truthy, hmb, hu, h0]

/-- Witness for C4 with user 1 (present in the user store) and a non-empty
message, through both the resolved-object and the primitive-id paths. -/
theorem create_notification_adds_one_witness :
    ("hello" : String) ≠ "" ∧ 1 ∈ [1, 2] ∧ (1 : Nat) ≠ 0 ∧
    (create_notification [1, 2] (.resolved 1) "hello" none ⟨[], 0⟩).notifications =
      [⟨0, 1, "hello", false⟩] ∧
    (create_notification [1, 2] (.byId 1) "hello" none ⟨[], 0⟩).notifications =
      [⟨0, 1, "hello", false⟩] := by
  have h := create_notification_adds_one [1, 2] 1 "hello" none ⟨[], 0⟩ (by decide)
  exact ⟨by decide, by decide, by decide, h.1, h.2 (by decide) (by decide)⟩

/-- Claim C5: with a falsy user reference (None or id 0), an empty message, or a
primitive id that resolves to no user, `create_notification` creates
nothing and returns normally (no exception escapes: the embedding is a
total function returning the unchanged store). -/
theorem create_notification_invalid_noop (users : List Nat) (user : UserRef)
    (message : String) (t : Option String) (db : DB) (i : Nat) :
    create_notification users .noneRef message t db = db ∧
    create_notification users (.byId 0) message t db = db ∧
    create_notification users user "" t db = db ∧
    (i ∉ users → create_notification users (.byId i) message t db = db) := by
    refine ⟨rfl, by simp [create_notification, UserRef.truthy], ?_, ?_⟩
    · cases user <;> simp [create_notification, UserRef.truthy]
    · intro hi
      simp only [create_notification, UserRef.truthy]
      by_cases h0 : i = 0
      · simp [h0]
      · simp
        intro _ _ hmem
        exact absurd hmem hi

/-- Witness for C5: user id 3 is absent from the user store, so creation
with it is a no-op. -/
theorem create_notification_invalid_noop_witness :
    3 ∉ [1, 2] ∧
    create_notification [1, 2] (.byId 3) "hello" none ⟨[], 0⟩ = ⟨[], 0⟩ :=
  ⟨by decide, (create_notification_invalid_noop [1, 2] .noneRef "hello" none
    ⟨[], 0⟩ 3).2.2.2 (by decide)⟩

/-- Claim C7: the two mark-read handlers have identical effects on the store for
every request and every store state; their responses agree except that on
a successful POST one answers the JSON success body and the other a
redirect to the dashboard. -/
theorem mark_handlers_equivalent (req : Request) (db : DB) :
    (mark_notification_as_read req db).2 = (mark_all_notifications_read req db).2 ∧
    (((mark_notification_as_read req db).1 = Response.json "success" ∧
      (mark_all_notifications_read req db).1 = Response.redirectTo "dashboard") ∨
     (mark_notification_as_read req db).1 = (mark_all_notifications_read req db).1) := by
  by_cases h : req.method = "POST" <;>
    simp [mark_notification_as_read, mark_all_notifications_read, h]

/-- Distinct primary keys make a record the unique holder of its id. -/
lemma pairwise_id_inj (ns : List Notification)
    (hp : ns.Pairwise fun a b => a.id ≠ b.id) :
    ∀ m ∈ ns, ∀ n ∈ ns, m.id = n.id → m = n := by
  induction ns with
  | nil =>
    intro m hm
    exact absurd hm (List.not_mem_nil m)
  | cons a l ih =>
    rw [List.pairwise_cons] at hp
    intro m hm n hn he
    rcases List.mem_cons.mp hm with rfl | hm2
    · rcases List.mem_cons.mp hn with rfl | hn2
      · rfl
      · exact absurd he (hp.1 n hn2)
    · rcases List.mem_cons.mp hn with rfl | hn2
      · exact absurd he.symm (hp.1 m hm2)
      · exact ih hp.2 m hm2 n hn2 he

/-- The mark-read bulk update never reverts a record: if every record
carrying id `i` was read, that is still so afterwards. -/
lemma markAllReadUpdate_read_stable (u : Nat) (ns : List Notification)
    (i : Nat) (h : ∀ m ∈ ns, m.id = i → m.is_read = true) :
    ∀ m ∈ markAllReadUpdate u ns, m.id = i → m.is_read = true := by
  intro m hm hid
  obtain ⟨m0, hm0, he⟩ := List.mem_map.mp hm
  by_cases hc : (m0.user == u && !m0.is_read) = true
  · rw [if_pos hc] at he
    rw [← he]
  · rw [if_neg hc] at he
    subst he
    exact h m0 hm0 hid

/-- Shape of `create_notification`: it either leaves the store untouched
or appends exactly one unread record carrying the fresh primary key. -/
lemma create_notification_shape (users : List Nat) (user : UserRef)
    (message : String) (t : Option String) (db : DB) :
    create_notification users user message t db = db ∨
    ∃ v, create_notification users user message t db =
      { db with
        notifications := db.notifications ++ [⟨db.nextId, v, message, false⟩]
        nextId := db.nextId + 1 } := by
  rcases user with _ | v | j
  · left
    rfl
  · by_cases hm : (message == "") = true
    · left
      simp [create_notification, UserRef.truthy, hm]
    · right
      exact ⟨v, by simp [create_notification, UserRef.truthy, hm]⟩
  · simp only [create_notification, UserRef.truthy]
    by_cases hc : ((j != 0) && !(message == "")) = true
    · rw [if_pos hc]
      by_cases hj : users.contains j = true
      · rw [if_pos hj]
        right
        exact ⟨j, rfl⟩
      · rw [if_neg hj]
        left
        rfl
    · rw [if_neg hc]
      left
      rfl

/-- One step of any operation keeps the tracked id below the fresh-key
counter and keeps every record carrying it read. -/
lemma step_preserves_read (users : List Nat) (op : Op) (db : DB) (i : Nat)
    (hlt : i < db.nextId)
    (h : ∀ m ∈ db.notifications, m.id = i → m.is_read = true) :
    i < (step users op db).nextId ∧
      ∀ m ∈ (step users op db).notifications, m.id = i → m.is_read = true := by
  cases op with
  | createOp u msg t =>
    rcases create_notification_shape users u msg t db with he | ⟨v, he⟩
    · simp only [step, he]
      exact ⟨hlt, h⟩
    · simp only [step, he]
      refine ⟨Nat.lt_succ_of_lt hlt, ?_⟩
      intro m hm hid
      rcases List.mem_append.mp hm with hm2 | hm2
      · exact h m hm2 hid
      · rw [List.mem_singleton.mp hm2] at hid
        exact absurd hid.symm (Nat.ne_of_lt hlt)
  | dashboardOp req =>
    exact ⟨hlt, h⟩
  | markJsonOp req =>
    by_cases hp : req.method = "POST"
    · simp only [step, mark_notification_as_read, if_pos hp]
      exact ⟨hlt, markAllReadUpdate_read_stable req.user db.notifications i h⟩
    · simp only [step, mark_notification_as_read, if_neg hp]
      exact ⟨hlt, h⟩
  | markRedirectOp req =>
    by_cases hp : req.method = "POST"
    · simp only [step, mark_all_notifications_read, if_pos hp]
      exact ⟨hlt, markAllReadUpdate_read_stable req.user db.notifications i h⟩
    · simp only [step, mark_all_notifications_read, if_neg hp]
      exact ⟨hlt, h⟩
  | clearOp req =>
    by_cases hp : req.method = "POST"
    · simp only [step, clear_all_notification, if_pos hp]
      refine ⟨hlt, ?_⟩
      intro m hm hid
      exact h m (List.mem_filter.mp hm).1 hid
    · simp only [step, clear_all_notification, if_neg hp]
      exact ⟨hlt, h⟩

/-- Running any sequence of operations keeps every record carrying the
tracked id read, provided the id is below the fresh-key counter. -/
lemma run_preserves_read (users : List Nat) (i : Nat) (ops : List Op) :
    ∀ db : DB, i < db.nextId →
      (∀ m ∈ db.notifications, m.id = i → m.is_read = true) →
      ∀ m ∈ (run users ops db).notifications, m.id = i → m.is_read = true := by
  induction ops with
  | nil =>
    intro db _ h
    exact h
  | cons op rest ih =>
    intro db hlt h
    have hs := step_preserves_read users op db i hlt h
    have hr : run users (op :: rest) db = run users rest (step users op db) := rfl
    rw [hr]
    exact ih (step users op db) hs.1 hs.2

/-- Claim C8: no operation of the subsystem ever reverts `is_read` from true to
false.  In any well-formed store (distinct primary keys, all below the
fresh-key counter) holding a read notification, after any sequence of
create/dashboard/mark-read/clear operations every record still carrying
that notification's id is read: once read, a notification stays read
until it is deleted. -/
theorem is_read_never_reverts (users : List Nat) (db : DB)
    (hids : db.notifications.Pairwise fun a b => a.id ≠ b.id)
    (hbound : ∀ m ∈ db.notifications, m.id < db.nextId)
    (n : Notification) (hn : n ∈ db.notifications) (hread : n.is_read = true)
    (ops : List Op) :
    ∀ m ∈ (run users ops db).notifications, m.id = n.id → m.is_read = true := by
  have h0 : ∀ m ∈ db.notifications, m.id = n.id → m.is_read = true := by
    intro m hm hid
    rw [pairwise_id_inj db.notifications hids m hm n hn hid]
    exact hread
  exact run_preserves_read users n.id ops db (hbound n hn) h0

/-- Witness for C8: a read notification of user 1 survives (as read) a
clear by user 2, a fresh creation, and a mark-read by user 1. -/
theorem is_read_never_reverts_witness :
    ([⟨0, 1, "a", true⟩, ⟨1, 2, "b", false⟩] : List Notification).Pairwise
      (fun a b => a.id ≠ b.id) ∧
    (∀ m ∈ ([⟨0, 1, "a", true⟩, ⟨1, 2, "b", false⟩] : List Notification),
      m.id < 2) ∧
    (⟨0, 1, "a", true⟩ : Notification) ∈
      ([⟨0, 1, "a", true⟩, ⟨1, 2, "b", false⟩] : List Notification) ∧
    (∀ m ∈ (run [1, 2]
        [Op.clearOp ⟨"POST", 2⟩, Op.createOp (.resolved 2) "x" none,
         Op.markJsonOp ⟨"POST", 1⟩]
        ⟨[⟨0, 1, "a", true⟩, ⟨1, 2, "b", false⟩], 2⟩).notifications,
      m.id = 0 → m.is_read = true) :=
  ⟨by decide, by decide, by decide,
   is_read_never_reverts [1, 2] ⟨[⟨0, 1, "a", true⟩, ⟨1, 2, "b", false⟩], 2⟩
     (by decide) (by decide) ⟨0, 1, "a", true⟩ (by decide) (by decide)
     [Op.clearOp ⟨"POST", 2⟩, Op.createOp (.resolved 2) "x" none,
      Op.markJsonOp ⟨"POST", 1⟩]⟩

end SchoolViews
